import Mathlib

/-!
Verification of `infinitystone/views/rbac.py` (RBAC role-assignment service).

The embedding models the database as lists of rows and each HTTP handler as a
pure function over that state.  Raised exceptions become `Except` errors; a
handler that mutates the database returns the resulting state, with the state
left unchanged on every error path (the Python code raises before the INSERT
and a zero-row DELETE changes nothing).
-/

set_option autoImplicit false

namespace Infinitystone

/-- A row of the `luxon_user_role` table (spec: RoleAssignment). -/
structure RoleAssignment where
  id : String
  user_id : String
  role_id : String
  domain : Option String
  tenant_id : Option String
  creation_time : Nat
deriving Repr, DecidableEq

/-- A row of the `luxon_role` table. -/
structure Role where
  id : String
  name : String
deriving Repr, DecidableEq

/-- A row of the `luxon_user` table (only the columns the module reads). -/
structure User where
  id : String
  domain : Option String
  tenant_id : Option String
deriving Repr, DecidableEq

/-- The database state visible to this module. -/
structure DB where
  luxon_user_role : List RoleAssignment
  luxon_role : List Role
  luxon_user : List User
deriving Repr, DecidableEq

/-- The all-zero root / global-admin sentinel UUID used by the code. -/
def rootId : String := "00000000-0000-0000-0000-000000000000"

/-- The exceptions the module can raise.  Each constructor keeps the data that
the Python exception message interpolates, so "naming the requester and the
attempted scope" is checkable. -/
inductive RbacError where
  /-- Raised as `ValidationError` by `check_unique`: duplicate assignment. -/
  | validationError (user role : String) (domain tenant : Option String)
  /-- Raised as `AccessDenied` by `check_context_auth`: requester not authorized. -/
  | accessDeniedRequester (req : String) (domain tenant : Option String)
  /-- Raised as `AccessDenied` by `check_context_auth`: target user absent in scope. -/
  | accessDeniedTarget (user : String) (domain tenant : Option String)
  /-- Raised as `HTTPNotFound` by `rm_user_role`: zero rows deleted. -/
  | httpNotFound (user role : String) (domain tenant : Option String)
  /-- Raised as a Python `TypeError` when `fetchone()` returned `None` and the code subscripts it
  (no role named `Administrator` exists). -/
  | pythonTypeError
deriving Repr, DecidableEq

/-- Modelled from the spec: `parse_sql_where` (in `infinitystone.utils.api`,
not part of `src/`) turns a field/value map into a parameterized conjunctive
WHERE clause; per the spec a null value yields null-aware equality — the
column must itself be NULL — rather than the filter being dropped.  This
function is the per-column match semantics of the clause it builds. -/
def sqlWhereMatch (wanted col : Option String) : Bool :=
  match wanted with
  | none => col.isNone
  | some v => col == some v

/-- Row predicate of the SELECT in `check_unique` (rbac.py:59-64):
`user_id=? AND role_id=?` plus the `parse_sql_where` clause over
`{domain, tenant_id}`. -/
def uniqueMatches (id role : String) (domain tenant_id : Option String)
    (r : RoleAssignment) : Bool :=
  r.user_id == id && r.role_id == role &&
    sqlWhereMatch domain r.domain && sqlWhereMatch tenant_id r.tenant_id

/-- Embeds `check_unique` (rbac.py:49-69): raise `ValidationError` when a matching
`luxon_user_role` row exists (`cur.fetchone()` truthy). -/
def check_unique (db : DB) (id role : String)
    (domain tenant_id : Option String) : Except RbacError Unit :=
  if db.luxon_user_role.any (uniqueMatches id role domain tenant_id) then
    .error (.validationError id role domain tenant_id)
  else
    .ok ()

/-- rbac.py:102 appends `" AND ('role_id'='00000000-0000-0000-0000-000000000000'"`
to the query.  `'role_id'` is single-quoted, hence a SQL string *literal*, not
the column: the disjunct compares the constant string "role_id" with the
constant sentinel string.  The embedding keeps that comparison verbatim. -/
def sentinelDisjunct : Bool :=
  "role_id" == "00000000-0000-0000-0000-000000000000"

/-- Row predicate of the requester-privilege SELECT in `check_context_auth`
(rbac.py:98-107): `parse_sql_where` over `{user_id, domain, tenant_id}` plus
`AND ('role_id'='0000…' OR role_id=?)` with the Administrator role id bound. -/
def adminAssignMatches (req admin_id : String) (domain tenant_id : Option String)
    (r : RoleAssignment) : Bool :=
  r.user_id == req &&
    sqlWhereMatch domain r.domain && sqlWhereMatch tenant_id r.tenant_id &&
    (sentinelDisjunct || r.role_id == admin_id)

/-- Row predicate of the target-user SELECT in `check_context_auth`
(rbac.py:114-119): `parse_sql_where` over `{id, domain, tenant_id}`. -/
def userMatches (uid : String) (domain tenant_id : Option String)
    (u : User) : Bool :=
  u.id == uid && sqlWhereMatch domain u.domain && sqlWhereMatch tenant_id u.tenant_id

/-- First half of `check_context_auth` (rbac.py:91-111): if the requester is
not the root sentinel, resolve the `Administrator` role id (`fetchone()['id']`
raises a TypeError when no such role exists) and require a matching
`luxon_user_role` row, else raise `AccessDenied` naming the requester. -/
def requesterCheck (db : DB) (req_user_id : String)
    (domain tenant_id : Option String) : Except RbacError Unit :=
  if req_user_id ≠ rootId then
    match db.luxon_role.find? (fun r => r.name == "Administrator") with
    | none => .error .pythonTypeError
    | some adminRole =>
      if db.luxon_user_role.any
          (adminAssignMatches req_user_id adminRole.id domain tenant_id) then
        .ok ()
      else
        .error (.accessDeniedRequester req_user_id domain tenant_id)
  else
    .ok ()

/-- Embeds `check_context_auth` (rbac.py:72-123).  `req_user_id` is
`g.current_request.token.user_id` passed explicitly.  Run the requester
privilege check (skipped for root), then in every case require the target
user to exist in the scope or raise `AccessDenied` naming the target. -/
def check_context_auth (db : DB) (req_user_id user_id : String)
    (domain tenant_id : Option String) : Except RbacError Unit :=
  match requesterCheck db req_user_id domain tenant_id with
  | .error e => .error e
  | .ok () =>
    if db.luxon_user.any (userMatches user_id domain tenant_id) then
      .ok ()
    else
      .error (.accessDeniedTarget user_id domain tenant_id)

/-- Python's `str.lower()` (character-wise lowering; the letters of the only
string it is compared against, `"none"`, are ASCII). -/
def strLower (s : String) : String := ⟨s.data.map Char.toLower⟩

/-- rbac.py:191-192: a domain whose `.lower()` is the literal `"none"` is
normalized to null before anything else runs. -/
def normalizeDomain (domain : Option String) : Option String :=
  match domain with
  | some d => if strLower d == "none" then none else some d
  | none => none

/-- The row the INSERT at rbac.py:201-207 writes, with `new_id` standing for
`str(uuid4())` and `ts` for `now()`. -/
def insertedRow (id role : String) (domain tenant_id : Option String)
    (new_id : String) (ts : Nat) : RoleAssignment :=
  { id := new_id, user_id := id, role_id := role,
    domain := domain, tenant_id := tenant_id, creation_time := ts }

/-- Embeds `AddUserRoles.add_user_role` (rbac.py:167-214): normalize the domain, run
`check_context_auth`, then `check_unique`, then INSERT the new row and return
it.  The second component is the database state after the call: unchanged
whenever an exception was raised (the raise happens before the INSERT). -/
def add_user_role (db : DB) (req_user_id id role : String)
    (domain tenant_id : Option String) (new_id : String) (ts : Nat) :
    Except RbacError RoleAssignment × DB :=
  let domain := normalizeDomain domain
  match check_context_auth db req_user_id id domain tenant_id with
  | .error e => (.error e, db)
  | .ok () =>
    match check_unique db id role domain tenant_id with
    | .error e => (.error e, db)
    | .ok () =>
      let row := insertedRow id role domain tenant_id new_id ts
      (.ok row, { db with luxon_user_role := db.luxon_user_role ++ [row] })

/-- Row predicate of the DELETE in `rm_user_role` (rbac.py:246-252):
`parse_sql_where` over `{user_id, role_id, tenant_id, domain}`.  The domain
argument is used verbatim — there is no "none"-to-null normalization here. -/
def rmMatches (id role : String) (domain tenant_id : Option String)
    (r : RoleAssignment) : Bool :=
  r.user_id == id && r.role_id == role &&
    sqlWhereMatch tenant_id r.tenant_id && sqlWhereMatch domain r.domain

/-- Embeds `RmUserRoles.rm_user_role` (rbac.py:228-256): DELETE every matching row;
raise `HTTPNotFound` exactly when `cur.rowcount` is zero.  On success the body
is empty (`Unit`). -/
def rm_user_role (db : DB) (id role : String)
    (domain tenant_id : Option String) : Except RbacError Unit × DB :=
  let kept := db.luxon_user_role.filter (fun r => !(rmMatches id role domain tenant_id r))
  let db' : DB := { db with luxon_user_role := kept }
  if kept.length == db.luxon_user_role.length then
    (.error (.httpNotFound id role domain tenant_id), db')
  else
    (.ok (), db')

/-- Python truthiness of an optional header string: `if domain:` is false for
both an absent header (`None`) and an empty string. -/
def truthy : Option String → Bool
  | none => false
  | some s => s ≠ ""

/-- Embeds `user_roles` (rbac.py:139-154): select the user's rows, appending
`AND domain=?` / `AND tenant_id=?` only when the corresponding header is
truthy. -/
def user_roles (db : DB) (id : String) (xDomain xTenant : Option String) :
    List RoleAssignment :=
  db.luxon_user_role.filter (fun r =>
    r.user_id == id &&
      (!truthy xDomain || r.domain == xDomain) &&
      (!truthy xTenant || r.tenant_id == xTenant))

/-- Concrete database for witnesses: an `Administrator` role exists, user `u1`
has one record in the global scope and one in domain "x", and no role
assignment exists yet. -/
def dbW : DB :=
  { luxon_user_role := [],
    luxon_role := [{ id := "admin-role-1", name := "Administrator" }],
    luxon_user := [{ id := "u1", domain := none, tenant_id := none },
                   { id := "u1", domain := some "x", tenant_id := none }] }

/-- Requester and database of the C1 failing input: a non-root user whose only
role assignment carries the all-zero global-admin sentinel as `role_id`. -/
def reqC1 : String := "11111111-1111-1111-1111-111111111111"

def dbC1 : DB :=
  { luxon_user_role :=
      [ { id := "ra-1", user_id := reqC1, role_id := rootId,
          domain := none, tenant_id := none, creation_time := 0 } ],
    luxon_role := [{ id := "admin-role-1", name := "Administrator" }],
    luxon_user := [{ id := "u2", domain := none, tenant_id := none }] }

/-- The state after the first successful Create of the C2 witness. -/
def dbW2 : DB :=
  { dbW with luxon_user_role := [insertedRow "u1" "r1" none none "id1" 0] }

/-- Database of the C5 and C9 witnesses: a single assignment of role `r1` to
user `u1` in the global scope. -/
def dbC9 : DB :=
  { luxon_user_role :=
      [ { id := "ra-1", user_id := "u1", role_id := "r1",
          domain := none, tenant_id := none, creation_time := 0 } ],
    luxon_role := [],
    luxon_user := [] }

theorem check_unique_ok_iff (db : DB) (id role : String) (d t : Option String) :
    check_unique db id role d t = .ok () ↔
      db.luxon_user_role.any (uniqueMatches id role d t) = false := by
  unfold check_unique
  split
  next h => simp [h]
  next h =>
    simp only [Bool.not_eq_true] at h
    simp [h]

theorem check_unique_error_iff (db : DB) (id role : String) (d t : Option String)
    (e : RbacError) :
    check_unique db id role d t = .error e ↔
      (e = .validationError id role d t ∧
        db.luxon_user_role.any (uniqueMatches id role d t) = true) := by
  unfold check_unique
  split
  next h =>
    constructor
    · intro h'
      injection h' with h''
      exact ⟨h''.symm, h⟩
    · rintro ⟨rfl, -⟩
      rfl
  next h =>
    simp only [Bool.not_eq_true] at h
    simp [h]

theorem requesterCheck_root (db : DB) (d t : Option String) :
    requesterCheck db rootId d t = .ok () := by
  simp [requesterCheck]

theorem requesterCheck_ok_iff (db : DB) (req : String) (d t : Option String) :
    requesterCheck db req d t = .ok () ↔
      (req = rootId ∨
        ∃ a, db.luxon_role.find? (fun r => r.name == "Administrator") = some a ∧
          db.luxon_user_role.any (adminAssignMatches req a.id d t) = true) := by
  unfold requesterCheck
  by_cases hreq : req = rootId
  · simp [hreq]
  · simp only [ne_eq, hreq, not_false_iff, if_true]
    cases hfind : db.luxon_role.find? (fun r => r.name == "Administrator") with
    | none =>
      simp only [hreq, false_or]
      constructor
      · intro h
        exact Except.noConfusion h
      · rintro ⟨a, ha, -⟩
        exact Option.noConfusion ha
    | some a =>
      by_cases hany : db.luxon_user_role.any (adminAssignMatches req a.id d t) = true
      · simp [hreq]
      · simp at hany
        simp [hreq, hany]

/-- Appending rows to `luxon_user_role` cannot make a passing requester check fail. -/
theorem requesterCheck_append (db : DB) (req : String) (d t : Option String)
    (rows : List RoleAssignment)
    (h : requesterCheck db req d t = .ok ()) :
    requesterCheck { db with luxon_user_role := db.luxon_user_role ++ rows } req d t = .ok () := by
  rw [requesterCheck_ok_iff] at h ⊢
  rcases h with h | ⟨a, hfind, hany⟩
  · exact Or.inl h
  · exact Or.inr ⟨a, by simpa using hfind, by simp [List.any_append, hany]⟩

theorem check_context_auth_ok_iff (db : DB) (req uid : String) (d t : Option String) :
    check_context_auth db req uid d t = .ok () ↔
      (requesterCheck db req d t = .ok () ∧
        db.luxon_user.any (userMatches uid d t) = true) := by
  unfold check_context_auth
  cases h1 : requesterCheck db req d t with
  | error e => simp [h1]
  | ok u =>
    cases u
    by_cases h2 : db.luxon_user.any (userMatches uid d t) = true
    · simp [h1, h2]
    · simp at h2
      simp [h1, h2]

theorem check_context_auth_root (db : DB) (uid : String) (d t : Option String) :
    check_context_auth db rootId uid d t =
      (if db.luxon_user.any (userMatches uid d t) then .ok ()
       else .error (.accessDeniedTarget uid d t)) := by
  unfold check_context_auth
  rw [requesterCheck_root]

/-- Appending rows to `luxon_user_role` cannot make a passing context check fail. -/
theorem check_context_auth_append (db : DB) (req uid : String) (d t : Option String)
    (rows : List RoleAssignment)
    (h : check_context_auth db req uid d t = .ok ()) :
    check_context_auth { db with luxon_user_role := db.luxon_user_role ++ rows }
      req uid d t = .ok () := by
  rw [check_context_auth_ok_iff] at h ⊢
  exact ⟨requesterCheck_append db req d t rows h.1, by simpa using h.2⟩

theorem add_user_role_eq (db : DB) (req id role : String) (d t : Option String)
    (nid : String) (ts : Nat) :
    add_user_role db req id role d t nid ts =
      (match check_context_auth db req id (normalizeDomain d) t with
       | .error e => (.error e, db)
       | .ok () =>
         match check_unique db id role (normalizeDomain d) t with
         | .error e => (.error e, db)
         | .ok () =>
           (.ok (insertedRow id role (normalizeDomain d) t nid ts),
            { db with luxon_user_role :=
                db.luxon_user_role ++ [insertedRow id role (normalizeDomain d) t nid ts] })) := rfl

theorem add_user_role_ok_iff (db : DB) (req id role : String) (d t : Option String)
    (nid : String) (ts : Nat) (row : RoleAssignment) (db2 : DB) :
    add_user_role db req id role d t nid ts = (.ok row, db2) ↔
      (check_context_auth db req id (normalizeDomain d) t = .ok () ∧
        check_unique db id role (normalizeDomain d) t = .ok () ∧
        row = insertedRow id role (normalizeDomain d) t nid ts ∧
        db2 = { db with luxon_user_role := db.luxon_user_role ++ [row] }) := by
  rw [add_user_role_eq]
  cases h1 : check_context_auth db req id (normalizeDomain d) t with
  | error e => simp [h1]
  | ok u =>
    cases u
    cases h2 : check_unique db id role (normalizeDomain d) t with
    | error e => simp [h2]
    | ok u =>
      cases u
      constructor
      · intro h
        injection h with h3 h4
        injection h3 with h5
        exact ⟨rfl, rfl, h5.symm, by rw [← h5]; exact h4.symm⟩
      · rintro ⟨-, -, rfl, rfl⟩
        rfl

theorem add_user_role_error_state (db : DB) (req id role : String)
    (d t : Option String) (nid : String) (ts : Nat) (e : RbacError)
    (h : (add_user_role db req id role d t nid ts).1 = .error e) :
    (add_user_role db req id role d t nid ts).2 = db := by
  rw [add_user_role_eq] at h ⊢
  cases h1 : check_context_auth db req id (normalizeDomain d) t with
  | error e2 => simp [h1]
  | ok u =>
    cases u
    cases h2 : check_unique db id role (normalizeDomain d) t with
    | error e2 => simp [h1, h2]
    | ok u =>
      cases u
      rw [h1, h2] at h
      exact absurd h (by simp)

theorem sqlWhereMatch_eq_true (w c : Option String) :
    sqlWhereMatch w c = true ↔ c = w := by
  cases w <;> simp [sqlWhereMatch, Option.isNone_iff_eq_none]

theorem sqlWhereMatch_refl (w : Option String) : sqlWhereMatch w w = true := by
  rw [sqlWhereMatch_eq_true]

theorem normalizeDomain_eq_none (d : String) (h : strLower d = "none") :
    normalizeDomain (some d) = none := by
  simp [normalizeDomain, h]

/-- C6: for every Create call, a domain equal to the literal "none" under any
letter casing is equivalent to passing no domain at all: the whole call —
authorization, uniqueness check, inserted row and returned record — behaves
as with a null domain. -/
theorem C6_create_none_domain_normalized (db : DB) (req id role : String)
    (t : Option String) (nid : String) (ts : Nat) (d : String)
    (h : strLower d = "none") :
    add_user_role db req id role (some d) t nid ts =
      add_user_role db req id role none t nid ts := by
  rw [add_user_role_eq, add_user_role_eq, normalizeDomain_eq_none d h]
  rfl

/-- Witness for C6 at the mixed-casing literal "NoNe". -/
theorem C6_create_none_domain_normalized_witness :
    strLower "NoNe" = "none" ∧
    add_user_role dbW rootId "u1" "r1" (some "NoNe") none "id1" 0 =
      add_user_role dbW rootId "u1" "r1" none none "id1" 0 :=
  ⟨rfl, C6_create_none_domain_normalized dbW rootId "u1" "r1" none "id1" 0 "NoNe" rfl⟩

/-- C10: an `X-Domain` or `X-Tenant-Id` header that is present but equal to
the empty string is treated by truthiness as absent, so the List result equals
that of the same request with the header omitted. -/
theorem C10_empty_header_ignored (db : DB) (id : String) (d t : Option String) :
    user_roles db id (some "") t = user_roles db id none t ∧
    user_roles db id d (some "") = user_roles db id d none := by
  constructor <;> simp [user_roles, truthy]

/-- C8: every failing Create call leaves the stored state unchanged — the
exception is raised before the INSERT, so no assignment is persisted. -/
theorem C8_failed_create_leaves_state (db : DB) (req id role : String)
    (d t : Option String) (nid : String) (ts : Nat) (e : RbacError)
    (h : (add_user_role db req id role d t nid ts).1 = .error e) :
    (add_user_role db req id role d t nid ts).2 = db :=
  add_user_role_error_state db req id role d t nid ts e h

/-- Witness for C8: a Create denied for lack of privilege leaves the state
as it was. -/
theorem C8_failed_create_leaves_state_witness :
    (add_user_role dbW "bob" "u1" "r1" none none "id1" 0).1 =
      .error (.accessDeniedRequester "bob" none none) ∧
    (add_user_role dbW "bob" "u1" "r1" none none "id1" 0).2 = dbW :=
  ⟨rfl, C8_failed_create_leaves_state dbW "bob" "u1" "r1" none none "id1" 0
    (.accessDeniedRequester "bob" none none) rfl⟩

/-- C3: when the requester is the all-zero root identifier the
Administrator-privilege lookup is skipped entirely — the context check
reduces to the target-existence test and is independent of the role table —
and the call succeeds whenever the target user exists in scope and no
duplicate assignment exists. -/
theorem C3_root_bypasses_privilege_lookup :
    (∀ (db : DB) (uid : String) (d t : Option String),
       check_context_auth db rootId uid d t =
         (if db.luxon_user.any (userMatches uid d t) then .ok ()
          else .error (.accessDeniedTarget uid d t))) ∧
    (∀ (db : DB) (roles2 : List Role) (uid role : String) (d t : Option String)
       (nid : String) (ts : Nat),
       (add_user_role { db with luxon_role := roles2 } rootId uid role d t nid ts).1 =
         (add_user_role db rootId uid role d t nid ts).1) ∧
    (∀ (db : DB) (uid role : String) (d t : Option String) (nid : String) (ts : Nat),
       db.luxon_user.any (userMatches uid (normalizeDomain d) t) = true →
       db.luxon_user_role.any (uniqueMatches uid role (normalizeDomain d) t) = false →
       ∃ row db2, add_user_role db rootId uid role d t nid ts = (.ok row, db2)) := by
  refine ⟨check_context_auth_root, ?_, ?_⟩
  · intro db roles2 uid role d t nid ts
    rw [add_user_role_eq, add_user_role_eq, check_context_auth_root,
      check_context_auth_root]
    by_cases hu : ∃ x ∈ db.luxon_user, userMatches uid (normalizeDomain d) t x = true
    · by_cases hq : ∃ x ∈ db.luxon_user_role, uniqueMatches uid role (normalizeDomain d) t x = true
      · simp [hu, hq, check_unique]
      · simp [hu, hq, check_unique]
    · simp [hu, check_unique]
  · intro db uid role d t nid ts h1 h2
    refine ⟨insertedRow uid role (normalizeDomain d) t nid ts, _,
      (add_user_role_ok_iff db rootId uid role d t nid ts _ _).mpr
        ⟨?_, ?_, rfl, rfl⟩⟩
    · rw [check_context_auth_root, if_pos h1]
    · rw [check_unique_ok_iff]
      exact h2

/-- Witness for C3: a root Create on a fresh database succeeds. -/
theorem C3_root_bypasses_privilege_lookup_witness :
    ∃ row db2, add_user_role dbW rootId "u1" "r1" none none "id1" 0 = (.ok row, db2) :=
  C3_root_bypasses_privilege_lookup.2.2 dbW "u1" "r1" none none "id1" 0 rfl rfl

/-- C1: the claim says the sentinel-or-Administrator disjunction authorizes
the requester; in the code the SQL single-quotes `'role_id'`, so the sentinel
disjunct compares two constant strings and is always false.  A requester who
holds exactly the global-admin sentinel role in the requested scope is
therefore denied, although the claim says the check passes. -/
theorem C1_sentinel_branch_dead :
    sentinelDisjunct = false ∧
    (∃ r ∈ dbC1.luxon_user_role,
       r.user_id = reqC1 ∧ r.domain = none ∧ r.tenant_id = none ∧
         r.role_id = rootId) ∧
    check_context_auth dbC1 reqC1 "u2" none none =
      .error (.accessDeniedRequester reqC1 none none) ∧
    (add_user_role dbC1 reqC1 "u2" "r9" none none "new-1" 0).1 =
      .error (.accessDeniedRequester reqC1 none none) := by
  refine ⟨rfl, ⟨_, List.mem_cons_self _ _, rfl, rfl, rfl, rfl⟩, rfl, rfl⟩

/-- C2: the Uniqueness Guard raises `ValidationError` iff a row with the same
user and role and null-aware-equal domain and tenant already exists; hence an
immediately repeated identical Create fails with `ValidationError`, while a
Create with a null domain and one with domain "x" are distinct tuples, so the
second still succeeds after the first. -/
theorem C2_uniqueness_guard :
    (∀ (db : DB) (id role : String) (d t : Option String),
       check_unique db id role d t = .error (.validationError id role d t) ↔
         ∃ r ∈ db.luxon_user_role,
           r.user_id = id ∧ r.role_id = role ∧ r.domain = d ∧ r.tenant_id = t) ∧
    (∀ (db : DB) (req id role : String) (d t : Option String) (nid : String)
       (ts : Nat) (row : RoleAssignment) (db2 : DB) (nid2 : String) (ts2 : Nat),
       add_user_role db req id role d t nid ts = (.ok row, db2) →
       (add_user_role db2 req id role d t nid2 ts2).1 =
         .error (.validationError id role (normalizeDomain d) t)) ∧
    (∀ (db : DB) (req id role : String) (t : Option String) (nid : String)
       (ts : Nat) (row : RoleAssignment) (db2 : DB) (nid2 : String) (ts2 : Nat),
       add_user_role db req id role none t nid ts = (.ok row, db2) →
       (∃ row2 db3, add_user_role db req id role (some "x") t nid2 ts2 = (.ok row2, db3)) →
       ∃ row2 db3, add_user_role db2 req id role (some "x") t nid2 ts2 = (.ok row2, db3)) := by
  refine ⟨?_, ?_, ?_⟩
  · intro db id role d t
    rw [check_unique_error_iff]
    simp [List.any_eq_true, uniqueMatches, sqlWhereMatch_eq_true, and_assoc]
  · intro db req id role d t nid ts row db2 nid2 ts2 h
    obtain ⟨hauth, huniq, hrow, hdb⟩ :=
      (add_user_role_ok_iff db req id role d t nid ts row db2).mp h
    subst hrow
    subst hdb
    rw [add_user_role_eq]
    have hauth2 := check_context_auth_append db req id (normalizeDomain d) t
      [insertedRow id role (normalizeDomain d) t nid ts] hauth
    rw [hauth2]
    have huniq2 : check_unique
        { db with luxon_user_role :=
            db.luxon_user_role ++ [insertedRow id role (normalizeDomain d) t nid ts] }
        id role (normalizeDomain d) t =
        .error (.validationError id role (normalizeDomain d) t) := by
      rw [check_unique_error_iff]
      refine ⟨rfl, ?_⟩
      simp [List.any_append, uniqueMatches, insertedRow, sqlWhereMatch_refl]
    rw [huniq2]
  · intro db req id role t nid ts row db2 nid2 ts2 h hsucc
    obtain ⟨hauth, huniq, hrow, hdb⟩ :=
      (add_user_role_ok_iff db req id role none t nid ts row db2).mp h
    subst hrow
    subst hdb
    obtain ⟨row2, db3, h2⟩ := hsucc
    obtain ⟨hauth2, huniq2, hrow2, hdb3⟩ :=
      (add_user_role_ok_iff db req id role (some "x") t nid2 ts2 row2 db3).mp h2
    refine ⟨insertedRow id role (normalizeDomain (some "x")) t nid2 ts2, _,
      (add_user_role_ok_iff _ req id role (some "x") t nid2 ts2 _ _).mpr
        ⟨?_, ?_, rfl, rfl⟩⟩
    · exact check_context_auth_append db req id (normalizeDomain (some "x")) t _ hauth2
    · rw [check_unique_ok_iff] at huniq2 ⊢
      have hx : normalizeDomain (some "x") = some "x" := rfl
      simp only [List.any_append, Bool.or_eq_false_iff]
      refine ⟨huniq2, ?_⟩
      simp [uniqueMatches, insertedRow, hx, sqlWhereMatch, normalizeDomain, strLower]

/-- Witness for C2: on the concrete database `dbW`, the repeated identical
Create fails with the duplicate error and the distinct-domain Create still
succeeds. -/
theorem C2_uniqueness_guard_witness :
    (add_user_role dbW2 rootId "u1" "r1" none none "id2" 1).1 =
      .error (.validationError "u1" "r1" none none) ∧
    (∃ row2 db3, add_user_role dbW2 rootId "u1" "r1" (some "x") none "id3" 2 =
      (.ok row2, db3)) :=
  ⟨C2_uniqueness_guard.2.1 dbW rootId "u1" "r1" none none "id1" 0
      (insertedRow "u1" "r1" none none "id1" 0) dbW2 "id2" 1 rfl,
   C2_uniqueness_guard.2.2 dbW rootId "u1" "r1" none "id1" 0
      (insertedRow "u1" "r1" none none "id1" 0) dbW2 "id3" 2 rfl
      ⟨insertedRow "u1" "r1" (some "x") none "id3" 2,
        { dbW with luxon_user_role := [insertedRow "u1" "r1" (some "x") none "id3" 2] },
        by rw [add_user_role_eq]; rfl⟩⟩

theorem rm_user_role_eq (db : DB) (id role : String) (d t : Option String) :
    rm_user_role db id role d t =
      (if (db.luxon_user_role.filter fun r => !(rmMatches id role d t r)).length ==
            db.luxon_user_role.length
       then (.error (.httpNotFound id role d t),
             { db with luxon_user_role :=
                 db.luxon_user_role.filter fun r => !(rmMatches id role d t r) })
       else (.ok (),
             { db with luxon_user_role :=
                 db.luxon_user_role.filter fun r => !(rmMatches id role d t r) })) := rfl

/-- Zero rows are affected by the DELETE exactly when no row matches. -/
theorem rm_zero_rows_iff (db : DB) (id role : String) (d t : Option String) :
    (db.luxon_user_role.filter fun r => !(rmMatches id role d t r)).length =
        db.luxon_user_role.length ↔
      db.luxon_user_role.any (rmMatches id role d t) = false := by
  rw [List.filter_length_eq_length]
  simp

theorem rm_user_role_state (db : DB) (id role : String) (d t : Option String) :
    (rm_user_role db id role d t).2 =
      { db with luxon_user_role :=
          db.luxon_user_role.filter fun r => !(rmMatches id role d t r) } := by
  rw [rm_user_role_eq]
  split <;> rfl

/-- C5: Remove deletes every row matching the null-aware four-field predicate,
fails with `NotFound` identifying the requested scope iff zero rows were
affected, and on a table holding exactly one matching row it deletes exactly
that row and returns success with an empty body. -/
theorem C5_remove_scoped_delete :
    (∀ (db : DB) (id role : String) (d t : Option String),
       ((rm_user_role db id role d t).1 = .error (.httpNotFound id role d t) ↔
          db.luxon_user_role.any (rmMatches id role d t) = false) ∧
       (db.luxon_user_role.any (rmMatches id role d t) = true →
          (rm_user_role db id role d t).1 = .ok ()) ∧
       (rm_user_role db id role d t).2.luxon_user_role =
         db.luxon_user_role.filter (fun r => !(rmMatches id role d t r)) ∧
       (rm_user_role db id role d t).2.luxon_role = db.luxon_role ∧
       (rm_user_role db id role d t).2.luxon_user = db.luxon_user) ∧
    (∀ (db : DB) (id role : String) (d t : Option String)
       (l1 l2 : List RoleAssignment) (r : RoleAssignment),
       db.luxon_user_role = l1 ++ r :: l2 →
       rmMatches id role d t r = true →
       (∀ x ∈ l1, rmMatches id role d t x = false) →
       (∀ x ∈ l2, rmMatches id role d t x = false) →
       (rm_user_role db id role d t).1 = .ok () ∧
       (rm_user_role db id role d t).2.luxon_user_role = l1 ++ l2) := by
  constructor
  · intro db id role d t
    refine ⟨?_, ?_, ?_, ?_, ?_⟩
    · by_cases hc : (db.luxon_user_role.filter fun r => !(rmMatches id role d t r)).length =
          db.luxon_user_role.length
      · rw [rm_user_role_eq, if_pos (beq_iff_eq.mpr hc)]
        exact iff_of_true rfl ((rm_zero_rows_iff db id role d t).mp hc)
      · rw [rm_user_role_eq, if_neg (by simpa using hc)]
        constructor
        · intro h
          exact Except.noConfusion h
        · intro h
          exact absurd ((rm_zero_rows_iff db id role d t).mpr h) hc
    · intro h
      have hc : ¬ (db.luxon_user_role.filter fun r => !(rmMatches id role d t r)).length =
          db.luxon_user_role.length := by
        rw [rm_zero_rows_iff, h]
        exact Bool.noConfusion
      rw [rm_user_role_eq, if_neg (by simpa using hc)]
    · rw [rm_user_role_state]
    · rw [rm_user_role_state]
    · rw [rm_user_role_state]
  · intro db id role d t l1 l2 r hsplit hr h1 h2
    have hl1 : l1.filter (fun x => !(rmMatches id role d t x)) = l1 :=
      List.filter_eq_self.mpr (fun a ha => by rw [h1 a ha]; rfl)
    have hl2 : l2.filter (fun x => !(rmMatches id role d t x)) = l2 :=
      List.filter_eq_self.mpr (fun a ha => by rw [h2 a ha]; rfl)
    have hkept : db.luxon_user_role.filter (fun x => !(rmMatches id role d t x)) = l1 ++ l2 := by
      rw [hsplit, List.filter_append, List.filter_cons, hl1, hl2, hr]
      simp
    have hlen : ¬ (db.luxon_user_role.filter fun x => !(rmMatches id role d t x)).length =
        db.luxon_user_role.length := by
      rw [hkept, hsplit]
      simp
    constructor
    · rw [rm_user_role_eq, if_neg (by simpa using hlen)]
    · rw [rm_user_role_state]
      simpa using hkept

/-- Witness for C5: removing the only matching tuple succeeds and empties the
table; removing a non-existent tuple fails with `NotFound`. -/
theorem C5_remove_scoped_delete_witness :
    ((rm_user_role dbC9 "u1" "r1" none none).1 = .ok () ∧
      (rm_user_role dbC9 "u1" "r1" none none).2.luxon_user_role = []) ∧
    (rm_user_role dbC9 "u2" "r1" none none).1 =
      .error (.httpNotFound "u2" "r1" none none) :=
  ⟨C5_remove_scoped_delete.2 dbC9 "u1" "r1" none none [] []
      { id := "ra-1", user_id := "u1", role_id := "r1",
        domain := none, tenant_id := none, creation_time := 0 }
      rfl rfl (by intro x hx; cases hx) (by intro x hx; cases hx),
   (C5_remove_scoped_delete.1 dbC9 "u2" "r1" none none).1.mpr rfl⟩

/-- C7: List returns exactly the user's rows, narrowed by an equality filter
on domain and/or tenant only when the corresponding selector is supplied
(truthy); with both selectors omitted all of the user's rows come back,
whatever their domain/tenant values. -/
theorem C7_list_narrowing :
    ∀ (db : DB) (id : String) (d t : Option String),
      (∀ r, r ∈ user_roles db id d t ↔
         (r ∈ db.luxon_user_role ∧ r.user_id = id ∧
           (truthy d = true → r.domain = d) ∧
           (truthy t = true → r.tenant_id = t))) ∧
      user_roles db id none none =
        db.luxon_user_role.filter (fun r => r.user_id == id) := by
  intro db id d t
  constructor
  · intro r
    by_cases hd : truthy d = true <;> by_cases ht : truthy t = true <;>
      simp [user_roles, List.mem_filter, hd, ht, and_assoc]
  · simp [user_roles, truthy]

/-- Witness for C7 on a concrete table: with no selectors, a row in domain
"x" is listed for its user. -/
theorem C7_list_narrowing_witness :
    insertedRow "u1" "r1" (some "x") none "id9" 7 ∈
      user_roles { dbW with luxon_user_role := [insertedRow "u1" "r1" (some "x") none "id9" 7] }
        "u1" none none :=
  ((C7_list_narrowing
      { dbW with luxon_user_role := [insertedRow "u1" "r1" (some "x") none "id9" 7] }
      "u1" none none).1 (insertedRow "u1" "r1" (some "x") none "id9" 7)).mpr
    ⟨List.mem_cons_self _ _, rfl, fun h => Bool.noConfusion h, fun h => Bool.noConfusion h⟩

/-- C9: Remove uses the domain verbatim — a literal "none" (any casing)
targets rows whose domain column is that string, and on a table whose only
row has a null domain, Remove with domain "none" is not equivalent to Remove
with domain omitted: the former finds nothing while the latter deletes the
row. -/
theorem C9_remove_no_none_normalization :
    (∀ (id role : String) (t : Option String) (d : String) (r : RoleAssignment),
       strLower d = "none" →
       (rmMatches id role (some d) t r = true ↔
         (r.user_id = id ∧ r.role_id = role ∧ r.tenant_id = t ∧
           r.domain = some d))) ∧
    (rm_user_role dbC9 "u1" "r1" (some "none") none ≠
       rm_user_role dbC9 "u1" "r1" none none ∧
     (rm_user_role dbC9 "u1" "r1" (some "none") none).1 =
       .error (.httpNotFound "u1" "r1" (some "none") none) ∧
     (rm_user_role dbC9 "u1" "r1" none none).1 = .ok ()) := by
  refine ⟨?_, ?_, rfl, rfl⟩
  · intro id role t d r _h
    simp [rmMatches, sqlWhereMatch_eq_true, and_assoc]
  · intro heq
    have h1 : (rm_user_role dbC9 "u1" "r1" (some "none") none).1 =
        .error (.httpNotFound "u1" "r1" (some "none") none) := rfl
    have h2 : (rm_user_role dbC9 "u1" "r1" none none).1 = .ok () := rfl
    rw [heq, h2] at h1
    exact Except.noConfusion h1

/-- Witness for C9: a row whose domain column is the literal string "NONE" is
matched by a Remove that passes that same string. -/
theorem C9_remove_no_none_normalization_witness :
    strLower "NONE" = "none" ∧
    rmMatches "u1" "r1" (some "NONE") none
      (insertedRow "u1" "r1" (some "NONE") none "id8" 3) = true :=
  ⟨rfl,
   (C9_remove_no_none_normalization.1 "u1" "r1" none "NONE"
      (insertedRow "u1" "r1" (some "NONE") none "id8" 3) rfl).mpr
    ⟨rfl, rfl, rfl, rfl⟩⟩

/-- Counterexample to C4 as stated: user "ghost" does not exist in scope, yet
the Create by the unauthorized non-root requester "bob" fails with the
AccessDenied that names the requester, not the one naming the target user. -/
theorem C4_counterexample_requester_error_first :
    dbW.luxon_user.any (userMatches "ghost" none none) = false ∧
    (add_user_role dbW "bob" "ghost" "r1" none none "id1" 0).1 =
      .error (.accessDeniedRequester "bob" none none) ∧
    (add_user_role dbW "bob" "ghost" "r1" none none "id1" 0).1 ≠
      .error (.accessDeniedTarget "ghost" none none) := by
  refine ⟨rfl, rfl, ?_⟩
  intro h
  have h1 : (add_user_role dbW "bob" "ghost" "r1" none none "id1" 0).1 =
      .error (.accessDeniedRequester "bob" none none) := rfl
  rw [h] at h1
  injection h1 with h2
  exact RbacError.noConfusion h2

/-- C4 (amended): whenever no User row matches the target in the requested
scope, the Create call fails and no assignment is created; when additionally
the requester part of the check passes (root or privileged), the failure is
the AccessDenied naming the target user and the scope. -/
theorem C4_target_must_exist :
    ∀ (db : DB) (req uid role : String) (d t : Option String) (nid : String)
      (ts : Nat),
      db.luxon_user.any (userMatches uid (normalizeDomain d) t) = false →
      ((add_user_role db req uid role d t nid ts).2 = db ∧
       (∃ e, (add_user_role db req uid role d t nid ts).1 = .error e) ∧
       (requesterCheck db req (normalizeDomain d) t = .ok () →
         (add_user_role db req uid role d t nid ts).1 =
           .error (.accessDeniedTarget uid (normalizeDomain d) t))) := by
  intro db req uid role d t nid ts habs
  have hnotok : check_context_auth db req uid (normalizeDomain d) t ≠ .ok () := by
    intro hok
    obtain ⟨-, h⟩ := (check_context_auth_ok_iff db req uid (normalizeDomain d) t).mp hok
    rw [habs] at h
    exact Bool.noConfusion h
  cases hc : check_context_auth db req uid (normalizeDomain d) t with
  | ok u =>
    cases u
    exact absurd hc hnotok
  | error e =>
    refine ⟨?_, ⟨e, ?_⟩, ?_⟩
    · rw [add_user_role_eq, hc]
    · rw [add_user_role_eq, hc]
    · intro hreq
      have hce : check_context_auth db req uid (normalizeDomain d) t =
          .error (.accessDeniedTarget uid (normalizeDomain d) t) := by
        unfold check_context_auth
        rw [hreq]
        simp [habs]
      rw [add_user_role_eq, hce]

/-- Witness for C4 (amended): even root cannot create an assignment for the
absent target "ghost". -/
theorem C4_target_must_exist_witness :
    (add_user_role dbW rootId "ghost" "r1" none none "id1" 0).1 =
      .error (.accessDeniedTarget "ghost" none none) ∧
    (add_user_role dbW rootId "ghost" "r1" none none "id1" 0).2 = dbW := by
  obtain ⟨h1, -, h3⟩ :=
    C4_target_must_exist dbW rootId "ghost" "r1" none none "id1" 0 rfl
  exact ⟨h3 (requesterCheck_root dbW none none), h1⟩

end Infinitystone
